import Mathlib

/-!
# Verification of the bubble-shooter physics engine core

Shallow embedding of `src/core_engine/physics_engine.cpp`.

Modelling conventions:
* C++ `float` values are modelled as exact rationals (`ℚ`); the development
  states the real-arithmetic semantics of the source text.
* The library functions `std::sqrt`, `std::sin`, `std::cos` are abstracted
  into a record `MathOps` of functions `ℚ → ℚ`; theorems that need a fact
  about them (for instance that `sqrt` of a non-negative number is
  non-negative) take it as a hypothesis.
* The C `rand()` source is modelled as a stream of naturals together with a
  cursor (`Rng`); the C contract guarantees values in `[0, RAND_MAX]`, which
  theorems assume as a boundedness hypothesis on the stream.
* `std::vector` becomes `List`; `push_back`/`emplace_back` append at the
  end; `erase(remove_if ...)` is an order-preserving `filter`.
* The source's `initialize` method is named `initEngine` here because
  `initialize` is a reserved Lean command name.
-/

/-- `RAND_MAX` of the target toolchain (emscripten): `2^31 - 1`. -/
def RAND_MAX : ℕ := 2147483647

/-- The float constant `PI` from the source, read as an exact decimal. -/
def PI : ℚ := 3.14159265358979323846

/-- Abstraction of the `<cmath>` functions used by the engine. -/
structure MathOps where
  sqrt : ℚ → ℚ
  sin : ℚ → ℚ
  cos : ℚ → ℚ

/-- The `rand()` source: a stream of draws and a cursor into it. -/
structure Rng where
  stream : ℕ → ℕ
  idx : ℕ

/-- One call to `rand()`: the drawn value and the advanced generator. -/
def Rng.next (g : Rng) : ℕ × Rng :=
  (g.stream g.idx, ⟨g.stream, g.idx + 1⟩)

/-- `static_cast<float>(rand()) / RAND_MAX`. -/
def randUnit (g : Rng) : ℚ × Rng :=
  let p := g.next
  ((p.1 : ℚ) / (RAND_MAX : ℚ), p.2)

/-- `Vector2D` from the source. -/
structure Vector2D where
  x : ℚ
  y : ℚ
deriving DecidableEq, Repr

/-- `GameObject`: common kinematic state. -/
structure GameObject where
  position : Vector2D
  velocity : Vector2D
  radius : ℚ
  active : Bool
deriving DecidableEq, Repr

/-- `GameObject::update`: forward Euler integration `position += velocity * dt`. -/
def GameObject.update (o : GameObject) (deltaTime : ℚ) : GameObject :=
  { o with position := ⟨o.position.x + o.velocity.x * deltaTime,
                        o.position.y + o.velocity.y * deltaTime⟩ }

/-- `Bubble`: a falling game object with colour, base speed and a spare flag. -/
structure Bubble extends GameObject where
  colorIndex : ℤ
  speed : ℚ
  isSpecial : Bool
deriving DecidableEq, Repr

/-- The `Bubble(x, y, radius, speed, colorIndex)` constructor:
starts active, velocity `(0, speed)` (falling down). -/
def Bubble.spawn (x y radius speed : ℚ) (colorIndex : ℤ) : Bubble :=
  { position := ⟨x, y⟩, velocity := ⟨0, speed⟩, radius := radius,
    active := true, colorIndex := colorIndex, speed := speed, isSpecial := false }

/-- `Bubble::update`: gravity-like acceleration on `velocity.y`, then the
horizontal wobble assignment to `velocity.x`, then base-class integration. -/
def Bubble.update (m : MathOps) (b : Bubble) (deltaTime : ℚ) : Bubble :=
  let b1 := { b with velocity := ⟨b.velocity.x, b.velocity.y + 0.1 * deltaTime * b.speed⟩ }
  let b2 := { b1 with velocity := ⟨m.sin (b1.position.y * 0.01) * 0.5, b1.velocity.y⟩ }
  { b2 with toGameObject := GameObject.update b2.toGameObject deltaTime }

/-- `Bullet`: a projectile with a range limit. -/
structure Bullet extends GameObject where
  speed : ℚ
  maxDistance : ℚ
  distanceTraveled : ℚ
deriving DecidableEq, Repr

/-- The `Bullet(x, y, angle, speed)` constructor: radius 5, range 1000,
velocity `(cos angle * speed, -sin angle * speed)` (up is negative `y`). -/
def Bullet.spawn (m : MathOps) (x y angle speed : ℚ) : Bullet :=
  { position := ⟨x, y⟩,
    velocity := ⟨m.cos angle * speed, -(m.sin angle) * speed⟩,
    radius := 5, active := true, speed := speed,
    maxDistance := 1000, distanceTraveled := 0 }

/-- `Bullet::update`: integrate, accumulate travelled distance, deactivate
past the range limit. -/
def Bullet.update (m : MathOps) (b : Bullet) (deltaTime : ℚ) : Bullet :=
  let b1 := { b with toGameObject := GameObject.update b.toGameObject deltaTime }
  let dist := b1.distanceTraveled
    + m.sqrt (b1.velocity.x * b1.velocity.x + b1.velocity.y * b1.velocity.y) * deltaTime
  let b2 := { b1 with distanceTraveled := dist }
  if b2.distanceTraveled > b2.maxDistance then { b2 with active := false } else b2

/-- The collision test of `checkCollisions`:
`sqrt(dx*dx + dy*dy) < bullet.radius + bubble.radius`. -/
def Bullet.hits (m : MathOps) (bl : Bullet) (bu : Bubble) : Prop :=
  m.sqrt ((bl.position.x - bu.position.x) * (bl.position.x - bu.position.x)
      + (bl.position.y - bu.position.y) * (bl.position.y - bu.position.y))
    < bl.radius + bu.radius

instance (m : MathOps) (bl : Bullet) (bu : Bubble) : Decidable (Bullet.hits m bl bu) :=
  inferInstanceAs (Decidable (_ < _))

/-- Marking a bubble inactive (`bubble.active = false`). -/
def deactB (bu : Bubble) : Bubble := { bu with active := false }

/-- Marking a bullet inactive (`bullet.active = false`). -/
def deactL (bl : Bullet) : Bullet := { bl with active := false }

/-- The inner loop of `checkCollisions` for one bullet: scan the bubbles in
order; at the first active one the bullet hits, mark it inactive in place and
also return the pre-destruction bubble; `none` when no active bubble is hit. -/
def collideFirst (m : MathOps) (bl : Bullet) : List Bubble → Option (List Bubble × Bubble)
  | [] => none
  | bu :: rest =>
    if bu.active = true ∧ Bullet.hits m bl bu then
      some (deactB bu :: rest, bu)
    else
      match collideFirst m bl rest with
      | none => none
      | some (rest1, hit) => some (bu :: rest1, hit)

/-- One explosion particle, as built inside the loop of `createExplosion`:
a bubble at the parent position with 0.3 of its radius, whose velocity is
overwritten radially and whose colour is forced to 4. -/
def explosionParticle (m : MathOps) (x y radius : ℚ) (particleCount i : ℕ) (g : Rng) :
    Bubble × Rng :=
  let angle := 2 * PI * (i : ℚ) / (particleCount : ℚ)
  let p := randUnit g
  let speed := 2 + p.1 * 3
  let particleRadius := radius * 0.3
  let b0 := Bubble.spawn x y particleRadius speed 0
  ({ b0 with velocity := ⟨m.cos angle * speed, m.sin angle * speed⟩, colorIndex := 4 }, p.2)

/-- The particle loop of `createExplosion`, iterating over the indices `is`. -/
def explosionLoop (m : MathOps) (x y radius : ℚ) (particleCount : ℕ) :
    List ℕ → Rng → List Bubble × Rng
  | [], g => ([], g)
  | i :: is, g =>
    let p := explosionParticle m x y radius particleCount i g
    let rest := explosionLoop m x y radius particleCount is p.2
    (p.1 :: rest.1, rest.2)

/-- `createExplosion(x, y, radius)`: draw `particleCount = 6 + rand() % 4`,
then build that many particles; they are appended to the bubble list by the
caller. -/
def createExplosion (m : MathOps) (x y radius : ℚ) (g : Rng) : List Bubble × Rng :=
  let p := g.next
  let particleCount := 6 + p.1 % 4
  explosionLoop m x y radius particleCount (List.range particleCount) p.2

/-- The outer loop of `checkCollisions`: fold over the bullets in order,
threading the bubble list, the collision count and the generator. For an
active bullet whose scan finds a hit, the bullet is deactivated and the
explosion particles are pushed at the end of the bubble list. -/
def collideBullets (m : MathOps) :
    List Bullet → List Bubble → Rng → List Bullet × List Bubble × ℕ × Rng
  | [], bubbles, g => ([], bubbles, 0, g)
  | bl :: rest, bubbles, g =>
    if bl.active = true then
      match collideFirst m bl bubbles with
      | some (bubbles1, hit) =>
        let parts := createExplosion m hit.position.x hit.position.y hit.radius g
        let r := collideBullets m rest (bubbles1 ++ parts.1) parts.2
        (deactL bl :: r.1, r.2.1, r.2.2.1 + 1, r.2.2.2)
      | none =>
        let r := collideBullets m rest bubbles g
        (bl :: r.1, r.2.1, r.2.2.1, r.2.2.2)
    else
      let r := collideBullets m rest bubbles g
      (bl :: r.1, r.2.1, r.2.2.1, r.2.2.2)

/-- The `PhysicsEngine` state. -/
structure PhysicsEngine where
  bubbles : List Bubble
  bullets : List Bullet
  gameTime : ℚ
  bubblesDestroyed : ℤ
  speedMultiplier : ℚ
deriving DecidableEq, Repr

/-- The `PhysicsEngine()` constructor. -/
def PhysicsEngine.new : PhysicsEngine :=
  { bubbles := [], bullets := [], gameTime := 0, bubblesDestroyed := 0, speedMultiplier := 1 }

/-- The spawning loop of `initialize`: each bubble draws radius, `x`, `y`,
speed, and colour (`rand() % 5`) in that order. -/
def spawnBubbles (canvasWidth : ℚ) : ℕ → Rng → List Bubble × Rng
  | 0, g => ([], g)
  | n + 1, g =>
    let p1 := randUnit g
    let radius := 12 + p1.1 * 8
    let p2 := randUnit p1.2
    let x := radius + p2.1 * (canvasWidth - 2 * radius)
    let p3 := randUnit p2.2
    let y := -radius - p3.1 * 100
    let p4 := randUnit p3.2
    let speed := 1 + p4.1 * 1.5
    let p5 := p4.2.next
    let color := ((p5.1 % 5 : ℕ) : ℤ)
    let rest := spawnBubbles canvasWidth n p5.2
    (Bubble.spawn x y radius speed color :: rest.1, rest.2)

/-- `initialize(bubbleCount, canvasWidth)` (renamed: `initialize` is a Lean
keyword): clear both collections, spawn the bubbles, zero the counters. -/
def PhysicsEngine.initEngine (e : PhysicsEngine) (bubbleCount : ℕ) (canvasWidth : ℚ)
    (g : Rng) : PhysicsEngine × Rng :=
  let r := spawnBubbles canvasWidth bubbleCount g
  ({ e with bubbles := r.1, bullets := [], gameTime := 0, bubblesDestroyed := 0 }, r.2)

/-- The movement phase of `update`: advance every active bubble. -/
def movedBubbles (m : MathOps) (e : PhysicsEngine) (deltaTime : ℚ) : List Bubble :=
  e.bubbles.map (fun b => if b.active = true then Bubble.update m b deltaTime else b)

/-- The movement phase of `update`: advance every active bullet. -/
def movedBullets (m : MathOps) (e : PhysicsEngine) (deltaTime : ℚ) : List Bullet :=
  e.bullets.map (fun b => if b.active = true then Bullet.update m b deltaTime else b)

/-- Steps 1-2 of `update`: advance the clock and every active object. -/
def PhysicsEngine.moveObjects (m : MathOps) (e : PhysicsEngine) (deltaTime : ℚ) :
    PhysicsEngine :=
  { e with gameTime := e.gameTime + deltaTime,
           bubbles := movedBubbles m e deltaTime,
           bullets := movedBullets m e deltaTime }

/-- `checkCollisions` at the engine level: run the bullet loop and add the
collision count to `bubblesDestroyed`; also returns the count (the C++
return value). -/
def PhysicsEngine.runCollisions (m : MathOps) (e : PhysicsEngine) (g : Rng) :
    PhysicsEngine × ℕ × Rng :=
  let r := collideBullets m e.bullets e.bubbles g
  ({ e with bullets := r.1, bubbles := r.2.1,
            bubblesDestroyed := e.bubblesDestroyed + (r.2.2.1 : ℤ) },
   r.2.2.1, r.2.2.2)

/-- `cleanup`: erase the inactive bubbles and bullets, keeping order. -/
def PhysicsEngine.cleanup (e : PhysicsEngine) : PhysicsEngine :=
  { e with bubbles := e.bubbles.filter (fun b => b.active),
           bullets := e.bullets.filter (fun b => b.active) }

/-- `update(deltaTime)`: clock and movement, then collisions, then cleanup. -/
def PhysicsEngine.update (m : MathOps) (e : PhysicsEngine) (deltaTime : ℚ) (g : Rng) :
    PhysicsEngine × Rng :=
  let e1 := PhysicsEngine.moveObjects m e deltaTime
  let r := PhysicsEngine.runCollisions m e1 g
  (PhysicsEngine.cleanup r.1, r.2.2)

/-- `addBubble(x, y, radius, speed, color)`. -/
def PhysicsEngine.addBubble (e : PhysicsEngine) (x y radius speed : ℚ) (color : ℤ) :
    PhysicsEngine :=
  { e with bubbles := e.bubbles ++ [Bubble.spawn x y radius speed color] }

/-- `shootBullet(x, y, angle)`: a bullet at the default speed 8. -/
def PhysicsEngine.shootBullet (m : MathOps) (e : PhysicsEngine) (x y angle : ℚ) :
    PhysicsEngine :=
  { e with bullets := e.bullets ++ [Bullet.spawn m x y angle 8] }

/-- `setSpeedMultiplier(multiplier)`: store the factor, and for every bubble
currently in the collection scale `speed` and reset `velocity.y` to it. -/
def PhysicsEngine.setSpeedMultiplier (e : PhysicsEngine) (multiplier : ℚ) : PhysicsEngine :=
  { e with speedMultiplier := multiplier,
           bubbles := e.bubbles.map (fun b =>
             { b with speed := b.speed * multiplier,
                      velocity := ⟨b.velocity.x, b.speed * multiplier⟩ }) }

/-- The point-recording loop of `predictTrajectory`: record the current
point, then advance by `v * 0.016` (the source's fixed per-step increment). -/
def trajectoryLoop (x y vx vy : ℚ) : ℕ → List Vector2D
  | 0 => []
  | n + 1 => ⟨x, y⟩ :: trajectoryLoop (x + vx * 0.016) (y + vy * 0.016) vx vy n

/-- `predictTrajectory(startX, startY, angle, speed, steps)`: a pure function
of its arguments; the engine state is not consulted. -/
def predictTrajectory (m : MathOps) (startX startY angle speed : ℚ) (steps : ℕ) :
    List Vector2D :=
  trajectoryLoop startX startY (m.cos angle * speed) (-(m.sin angle) * speed) steps

/-! ## Concrete instances used by witnesses and counterexamples -/

/-- Math functions that agree with the real ones at argument 0:
`cos 0 = 1`, `sin 0 = 0`; `sqrt` is the constant 0 stub. -/
def mcTrig : MathOps :=
  { sqrt := fun _ => 0, sin := fun _ => 0, cos := fun q => if q = 0 then 1 else 0 }

/-- Math functions whose `sqrt` stub is the constant 100 (no hit is ever
reported for small radii). -/
def mcFar : MathOps := { sqrt := fun _ => 100, sin := fun _ => 0, cos := fun _ => 0 }

/-- The generator whose stream is constantly 0. -/
def g0 : Rng := ⟨fun _ => 0, 0⟩

/-- The generator whose stream is constantly `RAND_MAX`. -/
def gMax : Rng := ⟨fun _ => RAND_MAX, 0⟩

/-- A bullet fired from the origin at angle 0. -/
def bl0 : Bullet := Bullet.spawn mcTrig 0 0 0 8

/-- A bubble of radius 10 sitting at the origin. -/
def bu0 : Bubble := Bubble.spawn 0 0 10 1 0

/-- A bubble far away from the origin. -/
def buFar : Bubble := Bubble.spawn 500 500 10 1 0

/-- A world holding one bubble and no bullets. -/
def eng1 : PhysicsEngine :=
  { bubbles := [bu0], bullets := [], gameTime := 0, bubblesDestroyed := 0, speedMultiplier := 1 }

/-- A world holding one far-away bubble and one bullet. -/
def eng2 : PhysicsEngine :=
  { bubbles := [buFar], bullets := [bl0], gameTime := 0, bubblesDestroyed := 0,
    speedMultiplier := 1 }

/-! ## Basic step lemmas -/

theorem Bubble.update_active (m : MathOps) (b : Bubble) (dt : ℚ) :
    (Bubble.update m b dt).active = b.active := rfl

theorem deactB_deactB (bu : Bubble) : deactB (deactB bu) = deactB bu := rfl

theorem deactL_active (bl : Bullet) : (deactL bl).active = false := rfl

theorem deactB_active (bu : Bubble) : (deactB bu).active = false := rfl

/-! ## C7: the bubble per-frame update -/

/-- C7: an active bubble's update first accelerates `velocity.y`, then
overwrites `velocity.x` as a function of the current `position.y`, then
integrates the position; the incoming horizontal velocity is irrelevant. -/
theorem claim_C7 (m : MathOps) (b : Bubble) (dt : ℚ) :
    Bubble.update m b dt =
      { position := ⟨b.position.x + m.sin (b.position.y * 0.01) * 0.5 * dt,
                     b.position.y + (b.velocity.y + 0.1 * dt * b.speed) * dt⟩,
        velocity := ⟨m.sin (b.position.y * 0.01) * 0.5, b.velocity.y + 0.1 * dt * b.speed⟩,
        radius := b.radius, active := b.active,
        colorIndex := b.colorIndex, speed := b.speed, isSpecial := b.isSpecial }
    ∧ ∀ vx : ℚ,
        Bubble.update m { b with velocity := ⟨vx, b.velocity.y⟩ } dt = Bubble.update m b dt := by
  exact ⟨rfl, fun vx => rfl⟩

/-! ## C8: the speed multiplier -/

/-- C8: `setSpeedMultiplier` rescales every bubble currently present and
resets its vertical velocity to the new speed, while a bubble added
afterwards starts at its own assigned speed with velocity `(0, speed)`. -/
theorem claim_C8 (e : PhysicsEngine) (multiplier : ℚ) :
    (∀ i : ℕ, ((e.setSpeedMultiplier multiplier).bubbles)[i]? =
      (e.bubbles[i]?).map (fun b =>
        { b with speed := b.speed * multiplier,
                 velocity := ⟨b.velocity.x, b.speed * multiplier⟩ }))
    ∧ (e.setSpeedMultiplier multiplier).bubbles.length = e.bubbles.length
    ∧ (∀ x y radius speed : ℚ, ∀ color : ℤ,
        ((e.setSpeedMultiplier multiplier).addBubble x y radius speed color).bubbles.getLast? =
          some (Bubble.spawn x y radius speed color))
    ∧ (∀ x y radius speed : ℚ, ∀ color : ℤ,
        (Bubble.spawn x y radius speed color).speed = speed
          ∧ (Bubble.spawn x y radius speed color).velocity = ⟨0, speed⟩) := by
  refine ⟨fun i => ?_, ?_, fun x y radius speed color => ?_, fun x y radius speed color => ⟨rfl, rfl⟩⟩
  · simp [PhysicsEngine.setSpeedMultiplier]
  · simp [PhysicsEngine.setSpeedMultiplier]
  · simp [PhysicsEngine.addBubble]

/-! ## C3: trajectory prediction -/

theorem trajectoryLoop_length (vx vy : ℚ) : ∀ (n : ℕ) (x y : ℚ),
    (trajectoryLoop x y vx vy n).length = n := by
  intro n
  induction n with
  | zero => intro x y; rfl
  | succ k ih => intro x y; simp [trajectoryLoop, ih]

theorem trajectoryLoop_getElem (vx vy : ℚ) : ∀ (n i : ℕ) (x y : ℚ), i < n →
    (trajectoryLoop x y vx vy n)[i]? = some ⟨x + vx * (0.016 * i), y + vy * (0.016 * i)⟩ := by
  intro n
  induction n with
  | zero => intro i x y hi; omega
  | succ k ih =>
    intro i x y hi
    cases i with
    | zero => simp [trajectoryLoop]
    | succ j =>
      have hj : j < k := by omega
      have := ih j (x + vx * 0.016) (y + vy * 0.016) hj
      simp only [trajectoryLoop, List.getElem?_cons_succ, this]
      simp only [Option.some.injEq, Vector2D.mk.injEq]
      constructor <;> push_cast <;> ring

/-- C3 is corrected: the per-step increment is `0.016`, not `1/60`. At
`predictTrajectory(0,0,0,10,5)` (with math functions agreeing with the real
`cos 0 = 1`, `sin 0 = 0`) the second point has `x = 0.16`, which differs
from the claimed `10 × 1/60`. -/
theorem claim_C3_cex :
    (predictTrajectory mcTrig 0 0 0 10 5).map Vector2D.x = [0, 0.16, 0.32, 0.48, 0.64]
    ∧ mcTrig.cos 0 = 1 ∧ mcTrig.sin 0 = 0
    ∧ ((0.16 : ℚ) = 10 * (1 / 60) → False) := by
  refine ⟨?_, by decide, by decide, by norm_num⟩
  simp [predictTrajectory, trajectoryLoop, mcTrig]
  norm_num

/-- C3 (amended): `predictTrajectory` is a pure function of its arguments
returning exactly `steps` points advanced at the fixed increment
`velocity * 0.016` per step; at `(0,0,0,10,5)` the five points have `x`
increasing by `10 × 0.016 = 0.16` each step and `y` constant at 0. -/
theorem claim_C3 (m : MathOps) (startX startY angle speed : ℚ) (steps i : ℕ)
    (hi : i < steps) (hcos : m.cos 0 = 1) (hsin : m.sin 0 = 0) :
    (predictTrajectory m startX startY angle speed steps).length = steps
    ∧ (predictTrajectory m startX startY angle speed steps)[i]? =
        some ⟨startX + m.cos angle * speed * (0.016 * i),
              startY + -(m.sin angle) * speed * (0.016 * i)⟩
    ∧ (predictTrajectory m 0 0 0 10 5).map Vector2D.x = [0, 0.16, 0.32, 0.48, 0.64]
    ∧ (predictTrajectory m 0 0 0 10 5).map Vector2D.y = [0, 0, 0, 0, 0] := by
  refine ⟨trajectoryLoop_length _ _ _ _ _, trajectoryLoop_getElem _ _ _ _ _ _ hi, ?_, ?_⟩
  · simp [predictTrajectory, trajectoryLoop, hcos, hsin]
    norm_num
  · simp [predictTrajectory, trajectoryLoop, hcos, hsin]

/-- Witness for the amended C3 at `(0,0,0,10,5)`, `i = 1`. -/
theorem claim_C3_witness :
    (1 < 5 ∧ mcTrig.cos 0 = 1 ∧ mcTrig.sin 0 = 0)
    ∧ (predictTrajectory mcTrig 0 0 0 10 5).length = 5
    ∧ (predictTrajectory mcTrig 0 0 0 10 5)[1]? =
        some ⟨0 + mcTrig.cos 0 * 10 * (0.016 * (1 : ℕ)), 0 + -(mcTrig.sin 0) * 10 * (0.016 * (1 : ℕ))⟩ :=
  ⟨⟨by decide, by decide, by decide⟩,
   (claim_C3 mcTrig 0 0 0 10 5 1 (by decide) (by decide) (by decide)).1,
   (claim_C3 mcTrig 0 0 0 10 5 1 (by decide) (by decide) (by decide)).2.1⟩

/-! ## Characterisation of the collision scan -/

theorem collideFirst_none_iff (m : MathOps) (bl : Bullet) : ∀ bubbles : List Bubble,
    collideFirst m bl bubbles = none ↔
      ∀ bu ∈ bubbles, ¬(bu.active = true ∧ Bullet.hits m bl bu) := by
  intro bubbles
  induction bubbles with
  | nil => simp [collideFirst]
  | cons bu rest ih =>
    by_cases hc : bu.active = true ∧ Bullet.hits m bl bu
    · simp only [collideFirst, if_pos hc]
      simp [hc]
    · cases hrec : collideFirst m bl rest with
      | none =>
        simp only [collideFirst, if_neg hc, hrec]
        simp only [List.mem_cons]
        constructor
        · intro _ x hx
          rcases hx with hx | hx
          · exact hx ▸ hc
          · exact (ih.mp hrec) x hx
        · intro _; trivial
      | some pr =>
        simp only [collideFirst, if_neg hc, hrec]
        constructor
        · intro h; exact absurd h (by simp)
        · intro h
          have : collideFirst m bl rest = none :=
            ih.mpr (fun x hx => h x (List.mem_cons_of_mem _ hx))
          rw [hrec] at this
          exact absurd this (by simp)

theorem collideFirst_some_spec (m : MathOps) (bl : Bullet) : ∀ (bubbles out : List Bubble)
    (hit : Bubble), collideFirst m bl bubbles = some (out, hit) →
    out.length = bubbles.length
    ∧ hit.active = true ∧ Bullet.hits m bl hit
    ∧ List.countP (fun bu => !bu.active) out = List.countP (fun bu => !bu.active) bubbles + 1
    ∧ (∀ j : ℕ, out[j]? = bubbles[j]? ∨ out[j]? = (bubbles[j]?).map deactB)
    ∧ ∃ k : ℕ, bubbles[k]? = some hit
        ∧ (∀ k' : ℕ, k' < k → ∀ bu', bubbles[k']? = some bu' →
            ¬(bu'.active = true ∧ Bullet.hits m bl bu'))
        ∧ out = bubbles.set k (deactB hit) := by
  intro bubbles
  induction bubbles with
  | nil => intro out hit h; exact absurd h (by simp [collideFirst])
  | cons bu rest ih =>
    intro out hit h
    by_cases hc : bu.active = true ∧ Bullet.hits m bl bu
    · rw [collideFirst, if_pos hc] at h
      rw [Option.some.injEq, Prod.mk.injEq] at h
      obtain ⟨hout, hhit⟩ := h
      subst hhit
      refine ⟨by simp [← hout], hc.1, hc.2, ?_, ?_, 0, by simp, by omega, by simp [← hout]⟩
      · rw [← hout]
        simp [List.countP_cons, deactB, hc.1]
      · intro j
        cases j with
        | zero => right; simp [← hout, deactB]
        | succ n => left; simp [← hout]
    · rw [collideFirst, if_neg hc] at h
      cases hrec : collideFirst m bl rest with
      | none => rw [hrec] at h; exact absurd h (by simp)
      | some pr =>
        rw [hrec] at h
        rw [Option.some.injEq] at h
        obtain ⟨rest1, hit1⟩ := pr
        rw [Prod.mk.injEq] at h
        obtain ⟨hout, hhit⟩ := h
        obtain ⟨l1, l2, l3, l4, l5, k, hk1, hk2, hk3⟩ := ih rest1 hit1 hrec
        subst hhit
        refine ⟨by simp [← hout, l1], l2, l3, ?_, ?_, k + 1, by simpa using hk1, ?_, ?_⟩
        · rw [← hout]
          simp only [List.countP_cons]
          omega
        · intro j
          cases j with
          | zero => left; simp [← hout]
          | succ n =>
            rw [← hout]
            simpa using l5 n
        · intro k' hk' bu' hbu'
          cases k' with
          | zero =>
            simp only [List.getElem?_cons_zero, Option.some.injEq] at hbu'
            exact hbu' ▸ hc
          | succ n =>
            simp only [List.getElem?_cons_succ] at hbu'
            exact hk2 n (by omega) bu' hbu'
        · rw [← hout, hk3]
          rfl

/-! ## Explosion particles are spawned active -/

theorem explosionLoop_active (m : MathOps) (x y radius : ℚ) (pc : ℕ) :
    ∀ (is : List ℕ) (g : Rng) (p : Bubble),
      p ∈ (explosionLoop m x y radius pc is g).1 → p.active = true := by
  intro is
  induction is with
  | nil => intro g p hp; simp [explosionLoop] at hp
  | cons i rest ih =>
    intro g p hp
    simp only [explosionLoop, List.mem_cons] at hp
    rcases hp with hp | hp
    · subst hp; rfl
    · exact ih _ p hp

theorem createExplosion_active (m : MathOps) (x y radius : ℚ) (g : Rng) (p : Bubble) :
    p ∈ (createExplosion m x y radius g).1 → p.active = true := by
  intro hp
  exact explosionLoop_active m x y radius _ _ _ p hp

theorem createExplosion_countP (m : MathOps) (x y radius : ℚ) (g : Rng) :
    List.countP (fun bu => !bu.active) (createExplosion m x y radius g).1 = 0 := by
  rw [List.countP_eq_zero]
  intro p hp
  simp [createExplosion_active m x y radius g p hp]

/-! ## The bubble-list evolution relation -/

theorem stepB_trans {o1 o2 o3 : Option Bubble}
    (h1 : o2 = o1 ∨ o2 = o1.map deactB) (h2 : o3 = o2 ∨ o3 = o2.map deactB) :
    o3 = o1 ∨ o3 = o1.map deactB := by
  have hmap : (o1.map deactB).map deactB = o1.map deactB := by
    cases o1 with
    | none => rfl
    | some a => simp [deactB_deactB]
  rcases h1 with h1 | h1 <;> rcases h2 with h2 | h2 <;> subst h1 <;> subst h2 <;> simp [hmap]

/-- Invariant of the outer collision loop: bullet positions are stable and
only ever flip to inactive; the original bubbles stay at their indices, each
either unchanged or deactivated; the count of newly inactive bullets and of
newly inactive bubbles both equal the collision count; and any bullet still
active afterwards hits no still-active original-index bubble. -/
theorem collideBullets_inv (m : MathOps) : ∀ (bullets : List Bullet) (bubbles : List Bubble)
    (g : Rng),
    ((collideBullets m bullets bubbles g).1.length = bullets.length)
    ∧ (bubbles.length ≤ (collideBullets m bullets bubbles g).2.1.length)
    ∧ (∀ i : ℕ, (collideBullets m bullets bubbles g).1[i]? = bullets[i]?
         ∨ (collideBullets m bullets bubbles g).1[i]? = (bullets[i]?).map deactL)
    ∧ (∀ j : ℕ, j < bubbles.length →
         ((collideBullets m bullets bubbles g).2.1[j]? = bubbles[j]?
           ∨ (collideBullets m bullets bubbles g).2.1[j]? = (bubbles[j]?).map deactB))
    ∧ (List.countP (fun bl => !bl.active) (collideBullets m bullets bubbles g).1
         = List.countP (fun bl => !bl.active) bullets + (collideBullets m bullets bubbles g).2.2.1)
    ∧ (List.countP (fun bu => !bu.active) (collideBullets m bullets bubbles g).2.1
         = List.countP (fun bu => !bu.active) bubbles + (collideBullets m bullets bubbles g).2.2.1)
    ∧ (∀ i j : ℕ, j < bubbles.length → ∀ bl1 bu1,
         (collideBullets m bullets bubbles g).1[i]? = some bl1 →
         (collideBullets m bullets bubbles g).2.1[j]? = some bu1 →
         bl1.active = true → bu1.active = true → ¬ Bullet.hits m bl1 bu1) := by
  intro bullets
  induction bullets with
  | nil =>
    intro bubbles g
    refine ⟨rfl, le_refl _, fun i => Or.inl rfl, fun j _ => Or.inl rfl, rfl, rfl, ?_⟩
    intro i j _ bl1 bu1 hbl1 _ _ _
    simp [collideBullets] at hbl1
  | cons bl rest ih =>
    intro bubbles g
    by_cases hbl : bl.active = true
    · cases hcf : collideFirst m bl bubbles with
      | none =>
        have hstep : collideBullets m (bl :: rest) bubbles g =
            ((bl :: (collideBullets m rest bubbles g).1,
              (collideBullets m rest bubbles g).2.1,
              (collideBullets m rest bubbles g).2.2.1,
              (collideBullets m rest bubbles g).2.2.2)) := by
          simp [collideBullets, hbl, hcf]
        obtain ⟨h1, h2, h3, h4, h5, h6, h7⟩ := ih bubbles g
        rw [hstep]
        refine ⟨by simp [h1], h2, ?_, h4, ?_, h6, ?_⟩
        · intro i
          cases i with
          | zero => left; simp
          | succ n => simpa using h3 n
        · simp only [List.countP_cons]
          omega
        · intro i j hj bl1 bu1 hbl1 hbu1 hact1 hact2
          cases i with
          | zero =>
            have heq : bl = bl1 := by simpa using hbl1
            subst heq
            rcases h4 j hj with hcase | hcase
            · rw [hbu1] at hcase
              have hmem : bu1 ∈ bubbles := List.getElem?_mem hcase.symm
              have hno := (collideFirst_none_iff m bl bubbles).mp hcf bu1 hmem
              intro hhits
              exact hno ⟨hact2, hhits⟩
            · rw [hbu1] at hcase
              cases hb : bubbles[j]? with
              | none => rw [hb] at hcase; exact absurd hcase (by simp)
              | some b0 =>
                rw [hb] at hcase
                have hde : bu1 = deactB b0 := by simpa using hcase
                rw [hde] at hact2
                exact absurd hact2 (by simp [deactB])
          | succ n =>
            simp only [List.getElem?_cons_succ] at hbl1
            exact h7 n j hj bl1 bu1 hbl1 hbu1 hact1 hact2
      | some pr =>
        obtain ⟨bubbles1, hit⟩ := pr
        have hstep : collideBullets m (bl :: rest) bubbles g =
            (deactL bl ::
              (collideBullets m rest
                (bubbles1 ++ (createExplosion m hit.position.x hit.position.y hit.radius g).1)
                (createExplosion m hit.position.x hit.position.y hit.radius g).2).1,
             (collideBullets m rest
                (bubbles1 ++ (createExplosion m hit.position.x hit.position.y hit.radius g).1)
                (createExplosion m hit.position.x hit.position.y hit.radius g).2).2.1,
             (collideBullets m rest
                (bubbles1 ++ (createExplosion m hit.position.x hit.position.y hit.radius g).1)
                (createExplosion m hit.position.x hit.position.y hit.radius g).2).2.2.1 + 1,
             (collideBullets m rest
                (bubbles1 ++ (createExplosion m hit.position.x hit.position.y hit.radius g).1)
                (createExplosion m hit.position.x hit.position.y hit.radius g).2).2.2.2) := by
          simp [collideBullets, hbl, hcf]
        obtain ⟨f1, _, _, f4, f5, _⟩ :=
          collideFirst_some_spec m bl bubbles bubbles1 hit hcf
        obtain ⟨k1, k2, k3, k4, k5, k6, k7⟩ :=
          ih (bubbles1 ++ (createExplosion m hit.position.x hit.position.y hit.radius g).1)
            (createExplosion m hit.position.x hit.position.y hit.radius g).2
        have hlenapp : bubbles.length ≤
            (bubbles1 ++
              (createExplosion m hit.position.x hit.position.y hit.radius g).1).length := by
          rw [List.length_append, f1]
          omega
        rw [hstep]
        refine ⟨by simp [k1], le_trans hlenapp k2, ?_, ?_, ?_, ?_, ?_⟩
        · intro i
          cases i with
          | zero => right; simp
          | succ n => simpa using k3 n
        · intro j hj
          have hj1 : j < bubbles1.length := by omega
          have happ : (bubbles1 ++
              (createExplosion m hit.position.x hit.position.y hit.radius g).1)[j]? =
              bubbles1[j]? := List.getElem?_append_left hj1
          have hk := k4 j (by omega)
          rw [happ] at hk
          exact stepB_trans (f5 j) hk
        · simp [List.countP_cons, k5, deactL, hbl]
          omega
        · simp [List.countP_append, k6, f4, createExplosion_countP]
          omega
        · intro i j hj bl1 bu1 hbl1 hbu1 hact1 hact2
          cases i with
          | zero =>
            have heq : deactL bl = bl1 := by simpa using hbl1
            rw [← heq] at hact1
            exact absurd hact1 (by simp [deactL])
          | succ n =>
            simp only [List.getElem?_cons_succ] at hbl1
            exact k7 n j (by omega) bl1 bu1 hbl1 hbu1 hact1 hact2
    · have hstep : collideBullets m (bl :: rest) bubbles g =
          ((bl :: (collideBullets m rest bubbles g).1,
            (collideBullets m rest bubbles g).2.1,
            (collideBullets m rest bubbles g).2.2.1,
            (collideBullets m rest bubbles g).2.2.2)) := by
        simp [collideBullets, hbl]
      obtain ⟨h1, h2, h3, h4, h5, h6, h7⟩ := ih bubbles g
      rw [hstep]
      refine ⟨by simp [h1], h2, ?_, h4, ?_, h6, ?_⟩
      · intro i
        cases i with
        | zero => left; simp
        | succ n => simpa using h3 n
      · simp only [List.countP_cons]
        omega
      · intro i j hj bl1 bu1 hbl1 hbu1 hact1 hact2
        cases i with
        | zero =>
          have heq : bl = bl1 := by simpa using hbl1
          rw [← heq] at hact1
          exact absurd hact1 hbl
        | succ n =>
          simp only [List.getElem?_cons_succ] at hbl1
          exact h7 n j hj bl1 bu1 hbl1 hbu1 hact1 hact2

/-! ## Field-level description of the bullet update -/

theorem Bullet.update_fields (m : MathOps) (b : Bullet) (dt : ℚ) :
    (Bullet.update m b dt).distanceTraveled
        = b.distanceTraveled
          + m.sqrt (b.velocity.x * b.velocity.x + b.velocity.y * b.velocity.y) * dt
    ∧ (Bullet.update m b dt).maxDistance = b.maxDistance
    ∧ (Bullet.update m b dt).active
        = (if b.distanceTraveled
              + m.sqrt (b.velocity.x * b.velocity.x + b.velocity.y * b.velocity.y) * dt
              > b.maxDistance then false else b.active) := by
  by_cases h : b.distanceTraveled
      + m.sqrt (b.velocity.x * b.velocity.x + b.velocity.y * b.velocity.y) * dt
      > b.maxDistance
  · simp [Bullet.update, GameObject.update, h]
  · simp [Bullet.update, GameObject.update, h]

/-! ## C1: the collision pass -/

/-- C1: for each active bullet the bubbles are scanned in order; the first
active bubble within range wins (`collideFirst` characterisation); on a hit
both objects are deactivated, the collision count and `bubblesDestroyed`
each grow by one, the explosion is spawned at the hit bubble's
pre-destruction position and radius, and the scan stops for that bullet; the
number of newly deactivated bullets and of newly deactivated bubbles both
equal the number of collisions of the frame. -/
theorem claim_C1 (m : MathOps) :
    (∀ (bl : Bullet) (bubbles : List Bubble), collideFirst m bl bubbles = none ↔
        ∀ bu ∈ bubbles, ¬(bu.active = true ∧ Bullet.hits m bl bu))
    ∧ (∀ (bl : Bullet) (bubbles out : List Bubble) (hit : Bubble),
        collideFirst m bl bubbles = some (out, hit) →
        hit.active = true ∧ Bullet.hits m bl hit
        ∧ ∃ k : ℕ, bubbles[k]? = some hit
            ∧ (∀ k' : ℕ, k' < k → ∀ bu', bubbles[k']? = some bu' →
                ¬(bu'.active = true ∧ Bullet.hits m bl bu'))
            ∧ out = bubbles.set k (deactB hit))
    ∧ (∀ (bl : Bullet) (rest : List Bullet) (bubbles out : List Bubble) (hit : Bubble)
        (g : Rng), bl.active = true → collideFirst m bl bubbles = some (out, hit) →
        collideBullets m (bl :: rest) bubbles g =
          (deactL bl :: (collideBullets m rest
              (out ++ (createExplosion m hit.position.x hit.position.y hit.radius g).1)
              (createExplosion m hit.position.x hit.position.y hit.radius g).2).1,
           (collideBullets m rest
              (out ++ (createExplosion m hit.position.x hit.position.y hit.radius g).1)
              (createExplosion m hit.position.x hit.position.y hit.radius g).2).2.1,
           (collideBullets m rest
              (out ++ (createExplosion m hit.position.x hit.position.y hit.radius g).1)
              (createExplosion m hit.position.x hit.position.y hit.radius g).2).2.2.1 + 1,
           (collideBullets m rest
              (out ++ (createExplosion m hit.position.x hit.position.y hit.radius g).1)
              (createExplosion m hit.position.x hit.position.y hit.radius g).2).2.2.2))
    ∧ (∀ (bullets : List Bullet) (bubbles : List Bubble) (g : Rng),
        List.countP (fun bl => !bl.active) (collideBullets m bullets bubbles g).1
          = List.countP (fun bl => !bl.active) bullets
            + (collideBullets m bullets bubbles g).2.2.1)
    ∧ (∀ (bullets : List Bullet) (bubbles : List Bubble) (g : Rng),
        List.countP (fun bu => !bu.active) (collideBullets m bullets bubbles g).2.1
          = List.countP (fun bu => !bu.active) bubbles
            + (collideBullets m bullets bubbles g).2.2.1)
    ∧ (∀ (e : PhysicsEngine) (g : Rng),
        (PhysicsEngine.runCollisions m e g).1.bubblesDestroyed
          = e.bubblesDestroyed + ((PhysicsEngine.runCollisions m e g).2.1 : ℤ)) := by
  refine ⟨collideFirst_none_iff m, ?_, ?_, ?_, ?_, fun e g => rfl⟩
  · intro bl bubbles out hit h
    obtain ⟨_, l2, l3, _, _, k, hk1, hk2, hk3⟩ := collideFirst_some_spec m bl bubbles out hit h
    exact ⟨l2, l3, k, hk1, hk2, hk3⟩
  · intro bl rest bubbles out hit g hbl hcf
    simp [collideBullets, hbl, hcf]
  · intro bullets bubbles g
    exact (collideBullets_inv m bullets bubbles g).2.2.2.2.1
  · intro bullets bubbles g
    exact (collideBullets_inv m bullets bubbles g).2.2.2.2.2.1

/-- Witness for C1: a point-blank bullet-bubble pair; the step equation of
the collision loop is exercised with all hypotheses discharged concretely. -/
theorem claim_C1_witness :
    (bl0.active = true ∧ collideFirst mcTrig bl0 [bu0] = some ([deactB bu0], bu0))
    ∧ collideBullets mcTrig [bl0] [bu0] g0 =
        (deactL bl0 :: (collideBullets mcTrig []
            ([deactB bu0] ++ (createExplosion mcTrig bu0.position.x bu0.position.y bu0.radius g0).1)
            (createExplosion mcTrig bu0.position.x bu0.position.y bu0.radius g0).2).1,
         (collideBullets mcTrig []
            ([deactB bu0] ++ (createExplosion mcTrig bu0.position.x bu0.position.y bu0.radius g0).1)
            (createExplosion mcTrig bu0.position.x bu0.position.y bu0.radius g0).2).2.1,
         (collideBullets mcTrig []
            ([deactB bu0] ++ (createExplosion mcTrig bu0.position.x bu0.position.y bu0.radius g0).1)
            (createExplosion mcTrig bu0.position.x bu0.position.y bu0.radius g0).2).2.2.1 + 1,
         (collideBullets mcTrig []
            ([deactB bu0] ++ (createExplosion mcTrig bu0.position.x bu0.position.y bu0.radius g0).1)
            (createExplosion mcTrig bu0.position.x bu0.position.y bu0.radius g0).2).2.2.2) :=
  ⟨⟨rfl, by norm_num [collideFirst, Bullet.hits, mcTrig, bl0, bu0, Bullet.spawn, Bubble.spawn]⟩,
   (claim_C1 mcTrig).2.2.1 bl0 [] [bu0] [deactB bu0] bu0 g0 rfl
     (by norm_num [collideFirst, Bullet.hits, mcTrig, bl0, bu0, Bullet.spawn, Bubble.spawn])⟩

/-! ## C2: bullet range invariant -/

/-- C2: for a non-negative timestep and a square root that is non-negative
on non-negative inputs, `distanceTraveled` is non-decreasing and stays
non-negative, `maxDistance` is untouched, the bullet deactivates as soon as
the travelled distance exceeds the limit, and no step of the engine ever
turns an inactive bullet active again (the bullet update, the collision
pass, and cleanup only preserve or remove inactivity). -/
theorem claim_C2 (m : MathOps) (hs : ∀ q : ℚ, 0 ≤ q → 0 ≤ m.sqrt q) (b : Bullet) (dt : ℚ)
    (hdt : 0 ≤ dt) :
    b.distanceTraveled ≤ (Bullet.update m b dt).distanceTraveled
    ∧ (0 ≤ b.distanceTraveled → 0 ≤ (Bullet.update m b dt).distanceTraveled)
    ∧ (Bullet.update m b dt).maxDistance = b.maxDistance
    ∧ ((Bullet.update m b dt).distanceTraveled > b.maxDistance →
        (Bullet.update m b dt).active = false)
    ∧ ((Bullet.update m b dt).active = true → b.active = true)
    ∧ (∀ (bullets : List Bullet) (bubbles : List Bubble) (g : Rng) (i : ℕ),
        (collideBullets m bullets bubbles g).1[i]? = bullets[i]?
          ∨ (collideBullets m bullets bubbles g).1[i]? = (bullets[i]?).map deactL)
    ∧ (∀ e : PhysicsEngine, (PhysicsEngine.cleanup e).bullets.Sublist e.bullets
        ∧ ∀ bl ∈ (PhysicsEngine.cleanup e).bullets, bl.active = true) := by
  obtain ⟨hd, hmax, hact⟩ := Bullet.update_fields m b dt
  have hq : (0 : ℚ) ≤ b.velocity.x * b.velocity.x + b.velocity.y * b.velocity.y :=
    add_nonneg (mul_self_nonneg _) (mul_self_nonneg _)
  have hsq : 0 ≤ m.sqrt (b.velocity.x * b.velocity.x + b.velocity.y * b.velocity.y) := hs _ hq
  have hstep : 0 ≤ m.sqrt (b.velocity.x * b.velocity.x + b.velocity.y * b.velocity.y) * dt :=
    mul_nonneg hsq hdt
  refine ⟨?_, ?_, hmax, ?_, ?_, ?_, ?_⟩
  · rw [hd]; linarith
  · intro h0; rw [hd]; linarith
  · intro hover
    rw [hd] at hover
    rw [hact, if_pos hover]
  · intro hactive
    rw [hact] at hactive
    by_cases hover : b.distanceTraveled
        + m.sqrt (b.velocity.x * b.velocity.x + b.velocity.y * b.velocity.y) * dt
        > b.maxDistance
    · rw [if_pos hover] at hactive; exact absurd hactive (by simp)
    · rw [if_neg hover] at hactive; exact hactive
  · intro bullets bubbles g i
    exact (collideBullets_inv m bullets bubbles g).2.2.1 i
  · intro e
    refine ⟨List.filter_sublist _, ?_⟩
    intro bl hbl
    simpa using (List.mem_filter.mp hbl).2

/-- Witness for C2 at a unit timestep with the constant-zero `sqrt` stub. -/
theorem claim_C2_witness :
    ((∀ q : ℚ, 0 ≤ q → 0 ≤ mcTrig.sqrt q) ∧ (0 : ℚ) ≤ 1)
    ∧ bl0.distanceTraveled ≤ (Bullet.update mcTrig bl0 1).distanceTraveled :=
  ⟨⟨fun q _ => le_refl 0, by norm_num⟩,
   (claim_C2 mcTrig (fun q _ => le_refl 0) bl0 1 (by norm_num)).1⟩

/-! ## C5: cleanup runs once per update, after collisions -/

/-- C5: after `update` returns, both collections hold only active objects;
`update` is exactly movement, then the collision pass, then one `cleanup`;
and `cleanup` removes precisely the inactive entries while keeping the
survivors in their relative order (sublist). -/
theorem claim_C5 (m : MathOps) (e : PhysicsEngine) (dt : ℚ) (g : Rng) :
    (∀ bu ∈ ((PhysicsEngine.update m e dt g).1).bubbles, bu.active = true)
    ∧ (∀ bl ∈ ((PhysicsEngine.update m e dt g).1).bullets, bl.active = true)
    ∧ (PhysicsEngine.update m e dt g).1
        = PhysicsEngine.cleanup
            ((PhysicsEngine.runCollisions m (PhysicsEngine.moveObjects m e dt) g).1)
    ∧ (∀ e2 : PhysicsEngine,
        (PhysicsEngine.cleanup e2).bubbles.Sublist e2.bubbles
        ∧ (PhysicsEngine.cleanup e2).bullets.Sublist e2.bullets
        ∧ (∀ bu : Bubble,
            bu ∈ (PhysicsEngine.cleanup e2).bubbles ↔ bu ∈ e2.bubbles ∧ bu.active = true)
        ∧ (∀ bl : Bullet,
            bl ∈ (PhysicsEngine.cleanup e2).bullets ↔ bl ∈ e2.bullets ∧ bl.active = true)) := by
  refine ⟨?_, ?_, rfl, ?_⟩
  · intro bu hbu
    simpa using (List.mem_filter.mp hbu).2
  · intro bl hbl
    simpa using (List.mem_filter.mp hbl).2
  · intro e2
    refine ⟨List.filter_sublist _, List.filter_sublist _, ?_, ?_⟩
    · intro bu
      simp [PhysicsEngine.cleanup, List.mem_filter]
    · intro bl
      simp [PhysicsEngine.cleanup, List.mem_filter]

/-- Witness for C5: in a world with one active bubble and no bullets, the
surviving bubble after `update` is active. -/
theorem claim_C5_witness : (Bubble.update mcTrig bu0 1).active = true :=
  (claim_C5 mcTrig eng1 1 g0).1 (Bubble.update mcTrig bu0 1)
    (by norm_num [PhysicsEngine.update, PhysicsEngine.cleanup, PhysicsEngine.runCollisions,
          PhysicsEngine.moveObjects, movedBubbles, movedBullets, collideBullets, eng1,
          List.filter, Bubble.update_active, bu0, Bubble.spawn])

/-! ## C6: no pending collisions after update -/

/-- C6: a bullet and a bubble that entered the frame's collision pass
active at indices `i`, `j` and are both still active after the pass do not
overlap (the code's own hit test is false for them); `update`'s final lists
are the active-filtered collision-pass outputs, so no overlapping
active-active pair from the start of the pass survives an `update`. -/
theorem claim_C6 (m : MathOps) (e : PhysicsEngine) (dt : ℚ) (g : Rng) (i j : ℕ)
    (blA : Bullet) (buA : Bubble) (blB : Bullet) (buB : Bubble)
    (_h1 : (movedBullets m e dt)[i]? = some blA)
    (h2 : (movedBubbles m e dt)[j]? = some buA)
    (_hA1 : blA.active = true) (_hA2 : buA.active = true)
    (h3 : (collideBullets m (movedBullets m e dt) (movedBubbles m e dt) g).1[i]? = some blB)
    (h4 : (collideBullets m (movedBullets m e dt) (movedBubbles m e dt) g).2.1[j]? = some buB)
    (hB1 : blB.active = true) (hB2 : buB.active = true) :
    ¬ Bullet.hits m blB buB
    ∧ (PhysicsEngine.update m e dt g).1.bullets
        = (collideBullets m (movedBullets m e dt) (movedBubbles m e dt) g).1.filter
            (fun bl => bl.active)
    ∧ (PhysicsEngine.update m e dt g).1.bubbles
        = (collideBullets m (movedBullets m e dt) (movedBubbles m e dt) g).2.1.filter
            (fun bu => bu.active) := by
  have hj : j < (movedBubbles m e dt).length := by
    by_contra hge
    rw [List.getElem?_eq_none (by omega)] at h2
    exact absurd h2 (by simp)
  refine ⟨?_, rfl, rfl⟩
  exact (collideBullets_inv m (movedBullets m e dt) (movedBubbles m e dt) g).2.2.2.2.2.2
    i j hj blB buB h3 h4 hB1 hB2

/-- Witness for C6: one bullet and one far-away bubble survive an update
without overlapping. -/
theorem claim_C6_witness :
    ¬ Bullet.hits mcFar (Bullet.update mcFar bl0 1) (Bubble.update mcFar buFar 1) :=
  (claim_C6 mcFar eng2 1 g0 0 0 (Bullet.update mcFar bl0 1) (Bubble.update mcFar buFar 1)
    (Bullet.update mcFar bl0 1) (Bubble.update mcFar buFar 1)
    (by norm_num [movedBullets, eng2, bl0, Bullet.spawn, mcTrig])
    (by norm_num [movedBubbles, eng2, buFar, Bubble.spawn])
    (by norm_num [Bullet.update, GameObject.update, mcFar, bl0, Bullet.spawn, mcTrig])
    (by norm_num [Bubble.update, GameObject.update, buFar, Bubble.spawn])
    (by norm_num [collideBullets, collideFirst, movedBullets, movedBubbles, eng2,
          Bullet.hits, Bullet.update, Bubble.update, GameObject.update, mcFar,
          bl0, buFar, Bullet.spawn, Bubble.spawn, mcTrig])
    (by norm_num [collideBullets, collideFirst, movedBullets, movedBubbles, eng2,
          Bullet.hits, Bullet.update, Bubble.update, GameObject.update, mcFar,
          bl0, buFar, Bullet.spawn, Bubble.spawn, mcTrig])
    (by norm_num [Bullet.update, GameObject.update, mcFar, bl0, Bullet.spawn, mcTrig])
    (by norm_num [Bubble.update, GameObject.update, buFar, Bubble.spawn])).1

/-! ## C10: with no bullets, update removes no bubble -/

/-- C10: a bubble's own update never changes its `active` flag, and for a
world with an empty bullet collection (all bubbles active, as every state
reachable through the public operations satisfies), `update` leaves the
bubble collection exactly the moved bubbles — same length as before. -/
theorem claim_C10 (m : MathOps) (e : PhysicsEngine) (dt : ℚ) (g : Rng)
    (hb : e.bullets = []) (hact : ∀ bu ∈ e.bubbles, bu.active = true) :
    ((PhysicsEngine.update m e dt g).1).bubbles = movedBubbles m e dt
    ∧ ((PhysicsEngine.update m e dt g).1).bubbles.length = e.bubbles.length
    ∧ (∀ (b : Bubble) (dt2 : ℚ), (Bubble.update m b dt2).active = b.active) := by
  have hmb : movedBullets m e dt = [] := by simp [movedBullets, hb]
  have hmoved : ∀ bu ∈ movedBubbles m e dt, bu.active = true := by
    intro bu hbu
    simp only [movedBubbles, List.mem_map] at hbu
    obtain ⟨b0, hb0, hb0eq⟩ := hbu
    by_cases hb0a : b0.active = true
    · rw [if_pos hb0a] at hb0eq
      rw [← hb0eq, Bubble.update_active]
      exact hact b0 hb0
    · rw [if_neg hb0a] at hb0eq
      rw [← hb0eq]
      exact hact b0 hb0
  have hmain : ((PhysicsEngine.update m e dt g).1).bubbles = movedBubbles m e dt := by
    show ((collideBullets m (movedBullets m e dt) (movedBubbles m e dt) g).2.1).filter
        (fun bu => bu.active) = movedBubbles m e dt
    rw [hmb]
    show (movedBubbles m e dt).filter (fun bu => bu.active) = movedBubbles m e dt
    rw [List.filter_eq_self]
    intro a ha
    simpa using hmoved a ha
  refine ⟨hmain, ?_, fun b dt2 => Bubble.update_active m b dt2⟩
  rw [hmain]
  simp [movedBubbles]

/-- Witness for C10: the one-bubble, no-bullet world keeps its bubble. -/
theorem claim_C10_witness :
    ((PhysicsEngine.update mcTrig eng1 1 g0).1).bubbles.length = eng1.bubbles.length :=
  (claim_C10 mcTrig eng1 1 g0 rfl (by decide)).2.1

/-! ## C4: explosion particles -/

theorem randUnit_bounds (g : Rng) (hg : ∀ t : ℕ, g.stream t ≤ RAND_MAX) :
    0 ≤ (randUnit g).1 ∧ (randUnit g).1 ≤ 1 := by
  constructor
  · exact div_nonneg (by positivity) (by positivity)
  · rw [randUnit]
    rw [div_le_one (by norm_num [RAND_MAX])]
    exact_mod_cast hg g.idx

theorem explosionLoop_spec (m : MathOps) (x y radius : ℚ) (pc : ℕ) :
    ∀ (is : List ℕ) (g : Rng), (∀ t : ℕ, g.stream t ≤ RAND_MAX) →
    (explosionLoop m x y radius pc is g).1.length = is.length
    ∧ (∀ (k : ℕ) (p : Bubble), ((explosionLoop m x y radius pc is g).1)[k]? = some p →
        ∃ (i : ℕ) (s : ℚ), is[k]? = some i ∧ (2:ℚ) ≤ s ∧ s ≤ 5
          ∧ p = { Bubble.spawn x y (radius * 0.3) s 0 with
                  velocity := ⟨m.cos (2 * PI * (i:ℚ) / (pc:ℚ)) * s,
                               m.sin (2 * PI * (i:ℚ) / (pc:ℚ)) * s⟩,
                  colorIndex := 4 }) := by
  intro is
  induction is with
  | nil =>
    intro g _
    refine ⟨rfl, ?_⟩
    intro k p hp
    exact absurd hp (by simp [explosionLoop])
  | cons i rest ih =>
    intro g hg
    have hg2 : ∀ t : ℕ, (randUnit g).2.stream t ≤ RAND_MAX := hg
    obtain ⟨ihlen, ihel⟩ := ih (randUnit g).2 hg2
    constructor
    · simp [explosionLoop, explosionParticle, ihlen]
    · intro k p hp
      cases k with
      | zero =>
        have hpeq : p = (explosionParticle m x y radius pc i g).1 := by
          simp only [explosionLoop, List.getElem?_cons_zero, Option.some.injEq] at hp
          exact hp.symm
        refine ⟨i, 2 + (randUnit g).1 * 3, by simp, ?_, ?_, ?_⟩
        · have := (randUnit_bounds g hg).1
          nlinarith
        · have := (randUnit_bounds g hg).2
          have h0 := (randUnit_bounds g hg).1
          nlinarith
        · rw [hpeq]
          rfl
      | succ n =>
        simp only [explosionLoop, List.getElem?_cons_succ] at hp
        obtain ⟨i2, s, hik, hs1, hs2, hpeq⟩ := ihel n p hp
        exact ⟨i2, s, by simpa using hik, hs1, hs2, hpeq⟩

/-- C4 is corrected: the per-particle speed is `2 + (rand()/RAND_MAX)*3` and
`rand()` can return `RAND_MAX` itself, so the speed can equal 5, which is
outside the claimed half-open range `[2, 5)`. With the all-`RAND_MAX`
stream the first particle of an explosion has speed exactly 5. -/
theorem claim_C4_cex :
    ((createExplosion mcTrig 0 0 10 gMax).1.head?).map Bubble.speed = some 5
    ∧ ¬((5 : ℚ) < 5) := by
  have hr : List.range 9 = [0, 1, 2, 3, 4, 5, 6, 7, 8] := rfl
  constructor
  · norm_num [createExplosion, gMax, Rng.next, RAND_MAX, hr, explosionLoop,
      explosionParticle, randUnit, Bubble.spawn]
  · norm_num

/-- C4 (amended): on a bubble's destruction, between 6 and 9 particles are
appended at the destroyed bubble's position, each with radius `0.3 × r`,
colour index 4, an independently drawn speed `s ∈ [2, 5]` (the closed upper
end is attainable because `rand()` can return `RAND_MAX`), evenly spaced
angles `2π·k/count`, and velocity `(cos(angle)·s, sin(angle)·s)` replacing
the default fall velocity. -/
theorem claim_C4 (m : MathOps) (x y radius : ℚ) (g : Rng)
    (hg : ∀ t : ℕ, g.stream t ≤ RAND_MAX) :
    6 ≤ (createExplosion m x y radius g).1.length
    ∧ (createExplosion m x y radius g).1.length ≤ 9
    ∧ (∀ (k : ℕ) (p : Bubble), ((createExplosion m x y radius g).1)[k]? = some p →
        p.position = ⟨x, y⟩ ∧ p.radius = radius * 0.3 ∧ p.colorIndex = 4 ∧ p.active = true
        ∧ ∃ s : ℚ, 2 ≤ s ∧ s ≤ 5 ∧ p.speed = s
            ∧ p.velocity =
                ⟨m.cos (2 * PI * (k:ℚ) / (((createExplosion m x y radius g).1.length : ℕ) : ℚ)) * s,
                 m.sin (2 * PI * (k:ℚ) / (((createExplosion m x y radius g).1.length : ℕ) : ℚ)) * s⟩)
    ∧ (∀ (bl : Bullet) (rest : List Bullet) (bubbles out : List Bubble) (hit : Bubble)
        (g2 : Rng), bl.active = true → collideFirst m bl bubbles = some (out, hit) →
        (collideBullets m (bl :: rest) bubbles g2).2.1
          = (collideBullets m rest
              (out ++ (createExplosion m hit.position.x hit.position.y hit.radius g2).1)
              (createExplosion m hit.position.x hit.position.y hit.radius g2).2).2.1) := by
  have hg2 : ∀ t : ℕ, (g.next.2).stream t ≤ RAND_MAX := hg
  obtain ⟨hlen, hel⟩ :=
    explosionLoop_spec m x y radius (6 + g.next.1 % 4) (List.range (6 + g.next.1 % 4))
      g.next.2 hg2
  have hlen2 : (createExplosion m x y radius g).1.length = 6 + g.next.1 % 4 := by
    show (explosionLoop m x y radius (6 + g.next.1 % 4) (List.range (6 + g.next.1 % 4))
        g.next.2).1.length = 6 + g.next.1 % 4
    rw [hlen, List.length_range]
  have hmod : g.next.1 % 4 < 4 := Nat.mod_lt _ (by norm_num)
  refine ⟨by omega, by omega, ?_, ?_⟩
  · intro k p hp
    have hp2 : ((explosionLoop m x y radius (6 + g.next.1 % 4)
        (List.range (6 + g.next.1 % 4)) g.next.2).1)[k]? = some p := hp
    obtain ⟨i, s, hik, hs1, hs2, hpeq⟩ := hel k p hp2
    have hklt : k < 6 + g.next.1 % 4 := by
      by_contra hge
      rw [List.getElem?_eq_none (by simpa using hge)] at hik
      exact absurd hik (by simp)
    have hi : i = k := by
      rw [List.getElem?_range hklt] at hik
      exact (Option.some.injEq _ _ ▸ hik).symm
    subst hi
    rw [hpeq]
    refine ⟨rfl, rfl, rfl, rfl, s, hs1, hs2, rfl, ?_⟩
    rw [hlen2]
  · intro bl rest bubbles out hit g2 hbl hcf
    simp [collideBullets, hbl, hcf]

/-- Witness for C4 with the all-zero stream. -/
theorem claim_C4_witness :
    (∀ t : ℕ, g0.stream t ≤ RAND_MAX) ∧ 6 ≤ (createExplosion mcTrig 0 0 10 g0).1.length :=
  ⟨fun _ => Nat.zero_le _, (claim_C4 mcTrig 0 0 10 g0 (fun _ => Nat.zero_le _)).1⟩

/-! ## C9: initialisation -/

theorem spawnBubbles_spec (canvasWidth : ℚ) (hW : 40 ≤ canvasWidth) :
    ∀ (n : ℕ) (g : Rng), (∀ t : ℕ, g.stream t ≤ RAND_MAX) →
    (spawnBubbles canvasWidth n g).1.length = n
    ∧ ∀ b ∈ (spawnBubbles canvasWidth n g).1,
        (12 ≤ b.radius ∧ b.radius ≤ 20)
        ∧ (b.radius ≤ b.position.x ∧ b.position.x ≤ canvasWidth - b.radius)
        ∧ (-b.radius - 100 ≤ b.position.y ∧ b.position.y ≤ -b.radius)
        ∧ (1 ≤ b.speed ∧ b.speed ≤ 5 / 2)
        ∧ (0 ≤ b.colorIndex ∧ b.colorIndex ≤ 4)
        ∧ b.active = true ∧ b.velocity = ⟨0, b.speed⟩ := by
  intro n
  induction n with
  | zero =>
    intro g _
    constructor
    · rfl
    · intro b hb
      simp [spawnBubbles] at hb
  | succ k ih =>
    intro g hg
    have hgs : ∀ (gx : Rng), gx.stream = g.stream → ∀ t : ℕ, gx.stream t ≤ RAND_MAX := by
      intro gx hx t
      rw [hx]
      exact hg t
    obtain ⟨ihlen, ihmem⟩ :=
      ih (randUnit (randUnit (randUnit (randUnit g).2).2).2).2.next.2 (hgs _ rfl)
    constructor
    · simp [spawnBubbles, ihlen]
    · intro b hb
      simp only [spawnBubbles, List.mem_cons] at hb
      rcases hb with hb | hb
      · obtain ⟨t1n, t1o⟩ := randUnit_bounds g hg
        obtain ⟨t2n, t2o⟩ := randUnit_bounds (randUnit g).2 (hgs _ rfl)
        obtain ⟨t3n, t3o⟩ := randUnit_bounds (randUnit (randUnit g).2).2 (hgs _ rfl)
        obtain ⟨t4n, t4o⟩ := randUnit_bounds (randUnit (randUnit (randUnit g).2).2).2 (hgs _ rfl)
        subst hb
        simp only [Bubble.spawn]
        set t1 := (randUnit g).1 with ht1
        set t2 := (randUnit (randUnit g).2).1 with ht2
        set t3 := (randUnit (randUnit (randUnit g).2).2).1 with ht3
        set t4 := (randUnit (randUnit (randUnit (randUnit g).2).2).2).1 with ht4
        have hrad1 : (12:ℚ) ≤ 12 + t1 * 8 := by nlinarith
        have hrad2 : (12:ℚ) + t1 * 8 ≤ 20 := by nlinarith
        have hspan : (0:ℚ) ≤ canvasWidth - 2 * (12 + t1 * 8) := by nlinarith
        have hx1 : (0:ℚ) ≤ t2 * (canvasWidth - 2 * (12 + t1 * 8)) := mul_nonneg t2n hspan
        have hx2 : t2 * (canvasWidth - 2 * (12 + t1 * 8))
            ≤ canvasWidth - 2 * (12 + t1 * 8) := by nlinarith
        have hy1 : (0:ℚ) ≤ t3 * 100 := by nlinarith
        have hy2 : t3 * 100 ≤ 100 := by nlinarith
        have hc : (g.stream : ℕ → ℕ) ((randUnit (randUnit (randUnit
            (randUnit g).2).2).2).2.idx) % 5 ≤ 4 :=
          Nat.le_of_lt_succ (Nat.lt_of_lt_of_le (Nat.mod_lt _ (by norm_num)) (by norm_num))
        refine ⟨⟨hrad1, hrad2⟩, ⟨by linarith, by linarith⟩, ⟨by linarith, by linarith⟩,
          ⟨by nlinarith, by nlinarith⟩, ⟨?_, ?_⟩, by trivial, by trivial⟩
        · exact Int.ofNat_nonneg _
        · exact_mod_cast hc
      · exact ihmem b hb

/-- C9 is corrected: `rand()` can return `RAND_MAX`, so the spawned
attributes can land on the upper endpoints of the claimed half-open ranges.
With the all-`RAND_MAX` stream, `initialize(1, 200)` spawns one bubble with
radius exactly 20, not in the claimed `[12, 20)`. -/
theorem claim_C9_cex :
    ((PhysicsEngine.new.initEngine 1 200 gMax).1.bubbles.map (fun b => b.radius)) = [20]
    ∧ ¬((20 : ℚ) < 20) := by
  constructor
  · norm_num [PhysicsEngine.initEngine, PhysicsEngine.new, spawnBubbles, randUnit,
      Rng.next, gMax, RAND_MAX, Bubble.spawn]
  · norm_num

/-- C9 (amended): for every `bubbleCount`, every `canvasWidth ≥ 40` (wide
enough for the largest spawn radius) and every bounded output sequence of
the random source, `initialize` empties the bullet collection, resets
`gameTime` and `bubblesDestroyed` to zero, and appends exactly
`bubbleCount` bubbles with `radius ∈ [12, 20]`,
`x ∈ [radius, canvasWidth - radius]`, `y ∈ [-radius-100, -radius]`,
`speed ∈ [1, 2.5]` (closed ranges: `rand()` can return `RAND_MAX`) and
`colorIndex ∈ {0,1,2,3,4}`. -/
theorem claim_C9 (e : PhysicsEngine) (bubbleCount : ℕ) (canvasWidth : ℚ) (g : Rng)
    (hg : ∀ t : ℕ, g.stream t ≤ RAND_MAX) (hW : 40 ≤ canvasWidth) :
    (PhysicsEngine.initEngine e bubbleCount canvasWidth g).1.bullets = []
    ∧ (PhysicsEngine.initEngine e bubbleCount canvasWidth g).1.gameTime = 0
    ∧ (PhysicsEngine.initEngine e bubbleCount canvasWidth g).1.bubblesDestroyed = 0
    ∧ (PhysicsEngine.initEngine e bubbleCount canvasWidth g).1.bubbles.length = bubbleCount
    ∧ ∀ b ∈ (PhysicsEngine.initEngine e bubbleCount canvasWidth g).1.bubbles,
        (12 ≤ b.radius ∧ b.radius ≤ 20)
        ∧ (b.radius ≤ b.position.x ∧ b.position.x ≤ canvasWidth - b.radius)
        ∧ (-b.radius - 100 ≤ b.position.y ∧ b.position.y ≤ -b.radius)
        ∧ (1 ≤ b.speed ∧ b.speed ≤ 5 / 2)
        ∧ (0 ≤ b.colorIndex ∧ b.colorIndex ≤ 4)
        ∧ b.active = true ∧ b.velocity = ⟨0, b.speed⟩ := by
  obtain ⟨hlen, hmem⟩ := spawnBubbles_spec canvasWidth hW bubbleCount g hg
  exact ⟨rfl, rfl, rfl, hlen, hmem⟩

/-- Witness for C9: one bubble spawned from the all-zero stream on a
canvas of width 100. -/
theorem claim_C9_witness :
    ((∀ t : ℕ, g0.stream t ≤ RAND_MAX) ∧ (40:ℚ) ≤ 100)
    ∧ (PhysicsEngine.initEngine PhysicsEngine.new 1 100 g0).1.bubbles.length = 1 :=
  ⟨⟨fun _ => Nat.zero_le _, by norm_num⟩,
   (claim_C9 PhysicsEngine.new 1 100 g0 (fun _ => Nat.zero_le _) (by norm_num)).2.2.2.1⟩
